import Mathlib

/-!
Verification of the satflow repository (src/satflow/main.py, src/satflow/api.py):
a shallow embedding of the orchestration pipeline (query routing, retrying
query task, download routing, download loop), of the provider clients
(credential validation, session usage, bbox-to-WKT encoding, response
normalisation), and proofs of the specified properties.

Remote I/O (provider search/download calls) is abstracted by oracles passed as
explicit arguments; session usage is made observable by event traces.
-/

set_option autoImplicit false

namespace Satflow

/-- A Python dict of product fields, as produced by a provider query.
Membership tests such as `'uuid' in product` become `hasKey`. -/
abbrev Record := List (String × String)

/-- `k in product` for a Python dict modelled as an association list. -/
def hasKey (r : Record) (k : String) : Bool :=
  r.any fun p => p.1 == k

/-- Python exceptions raised by the code under verification. -/
inductive Err
  /-- `raise ValueError(msg)` -/
  | valueError (msg : String)
  /-- a failing `assert cond, msg` -/
  | assertionError (msg : String)
  /-- any exception escaping a remote provider call -/
  | remoteError (msg : String)
deriving Repr, DecidableEq

/-- The two provider client classes of `src/satflow/api.py`. -/
inductive Provider
  | copernicus
  | earthExplorer
deriving Repr, DecidableEq

/-! ## Download routing and the download loop (`src/satflow/main.py`, `download_all`) -/

/-- The routing performed by the body of the `for` loop of `download_all`
(main.py lines 41-48): `if 'uuid' in product: ... elif 'entity_id' in
product: ... else: raise ValueError('Unknown product type')`, paired with the
output directory chosen on each branch. -/
def routeDownload (product : Record) : Except Err (Provider × String) :=
  if hasKey product "uuid" then
    .ok (.copernicus, "../satdata/sentinel")
  else if hasKey product "entity_id" then
    .ok (.earthExplorer, "../satdata/landsat")
  else
    .error (.valueError "Unknown product type")

/-- `download_all` (main.py lines 34-50): iterate over the products in order,
route each one, download it via the chosen provider into the chosen directory,
and collect the returned paths.  `dl prov product dir` is the oracle for
`api.download(product, output_dir)` on the constructed provider client; a
raised exception anywhere in the loop propagates out of the function. -/
def downloadAll (dl : Provider → Record → String → Except Err String) :
    List Record → Except Err (List String)
  | [] => .ok []
  | product :: rest =>
    match routeDownload product with
    | .error e => .error e
    | .ok (prov, dir) =>
      match dl prov product dir with
      | .error e => .error e
      | .ok path =>
        match downloadAll dl rest with
        | .error e => .error e
        | .ok paths => .ok (path :: paths)

/-- On a batch whose records all carry a routing discriminator and whose
downloads all succeed (oracle `fun prov p d => .ok (dlFun prov p d)`),
`downloadAll` succeeds and returns, in input order, the download of each
record into its provider's directory. -/
theorem downloadAll_map_ok (dlFun : Provider → Record → String → String)
    (ps : List Record)
    (h : ∀ p ∈ ps, (hasKey p "uuid" || hasKey p "entity_id") = true) :
    downloadAll (fun prov p dir => .ok (dlFun prov p dir)) ps =
      .ok (ps.map fun p =>
        if hasKey p "uuid" then dlFun .copernicus p "../satdata/sentinel"
        else dlFun .earthExplorer p "../satdata/landsat") := by
  induction ps with
  | nil => rfl
  | cons p ps ih =>
    have hp := h p (List.mem_cons_self p ps)
    have hrest : ∀ q ∈ ps, (hasKey q "uuid" || hasKey q "entity_id") = true :=
      fun q hq => h q (List.mem_cons_of_mem p hq)
    by_cases hu : hasKey p "uuid"
    · simp [downloadAll, routeDownload, hu, ih hrest]
    · have he : hasKey p "entity_id" = true := by
        simpa [hu] using hp
      simp [downloadAll, routeDownload, hu, he, ih hrest]

/-- A successful `downloadAll` run returns exactly one path per input record. -/
theorem downloadAll_ok_length (dl : Provider → Record → String → Except Err String)
    (ps : List Record) (paths : List String)
    (h : downloadAll dl ps = .ok paths) : paths.length = ps.length := by
  induction ps generalizing paths with
  | nil =>
    simp only [downloadAll] at h
    cases h
    rfl
  | cons p ps ih =>
    simp only [downloadAll] at h
    cases hr : routeDownload p with
    | error e => rw [hr] at h; cases h
    | ok pd =>
      obtain ⟨prov, dir⟩ := pd
      rw [hr] at h
      dsimp only at h
      cases hd : dl prov p dir with
      | error e => rw [hd] at h; cases h
      | ok path =>
        rw [hd] at h
        dsimp only at h
        cases hrest : downloadAll dl ps with
        | error e => rw [hrest] at h; cases h
        | ok paths' =>
          rw [hrest] at h
          dsimp only at h
          cases h
          simp [ih paths' hrest]

/-! ## Query routing and the retried query task (`src/satflow/main.py`, `query`) -/

/-- The body of the `query` task (main.py lines 18-31): select the provider
client by `product_type`, raise `ValueError` on any other string, and
otherwise return that provider's `api.query(...)` result.  `qCop` / `qEE` are
the oracles for the remote call on the constructed client (including its
construction). -/
def queryBody (qCop qEE : Except Err (List Record)) (product_type : String) :
    Except Err (List Record) :=
  if product_type == "S2MSI1C" then qCop
  else if product_type == "landsat_8_c1" then qEE
  else .error (.valueError "Product type value is not currently supported.")

/-- `max_retries=3` in the `@task` decorator of `query` (main.py line 13). -/
def queryMaxRetries : Nat := 3

/-- `retry_delay=timedelta(seconds=5)` in the `@task` decorator of `query`
(main.py line 13). -/
def queryRetryDelaySeconds : Nat := 5

/-- Prefect 1.x task retry semantics applied to a task body: the task is run
once, and on each failure — whatever the raised exception — it is retried
after waiting `queryRetryDelaySeconds`, as long as retries remain;
`max_retries` counts the retries after the initial attempt.  `attempt i` is
the outcome of the body on its `i`-th run; the result is the final outcome,
the total number of attempts made, and the total seconds of retry delay
waited. -/
def retryLoop (attempt : Nat → Except Err (List Record)) (i : Nat) :
    Nat → Except Err (List Record) × Nat × Nat
  | 0 => (attempt i, i + 1, 0)
  | retries + 1 =>
    match attempt i with
    | .ok r => (.ok r, i + 1, 0)
    | .error _ =>
      let rest := retryLoop attempt (i + 1) retries
      (rest.1, rest.2.1, queryRetryDelaySeconds + rest.2.2)

/-- The `query` task as scheduled by Prefect: the body `queryBody` run under
the configured retry policy.  `qCop i` / `qEE i` are the provider-call
outcomes on the `i`-th attempt. -/
def queryTask (qCop qEE : Nat → Except Err (List Record)) (product_type : String) :
    Except Err (List Record) × Nat × Nat :=
  retryLoop (fun i => queryBody (qCop i) (qEE i) product_type) 0 queryMaxRetries

/-- `retryLoop` makes at least one and at most `retries + 1` attempts beyond
the `i` already made. -/
theorem retryLoop_attempts_le (attempt : Nat → Except Err (List Record)) :
    ∀ retries i, i + 1 ≤ (retryLoop attempt i retries).2.1 ∧
      (retryLoop attempt i retries).2.1 ≤ i + retries + 1 := by
  intro retries
  induction retries with
  | zero => intro i; exact ⟨le_refl _, le_refl _⟩
  | succ n ih =>
    intro i
    cases h : attempt i with
    | ok r => simp [retryLoop, h]
    | error e =>
      have := ih (i + 1)
      constructor
      · simp only [retryLoop, h]
        omega
      · simp only [retryLoop, h]
        omega

/-- If every attempt fails, `retryLoop` exhausts its whole retry budget and
waits the fixed delay between every pair of consecutive attempts. -/
theorem retryLoop_all_fail (attempt : Nat → Except Err (List Record))
    (hfail : ∀ i, ∃ e, attempt i = .error e) :
    ∀ retries i, (retryLoop attempt i retries).2.1 = i + retries + 1 ∧
      (retryLoop attempt i retries).2.2 = queryRetryDelaySeconds * retries := by
  intro retries
  induction retries with
  | zero => intro i; exact ⟨rfl, rfl⟩
  | succ n ih =>
    intro i
    obtain ⟨e, he⟩ := hfail i
    have := ih (i + 1)
    constructor
    · simp only [retryLoop, he]
      omega
    · simp only [retryLoop, he]
      rw [this.2]
      ring

/-! ## The Copernicus response normalisation (`CopernicusApi.ordered_dict_to_list`) -/

/-- A Python dict as iterated by `.values()`: an ordered list of keys together
with the value stored at each key. -/
structure PyDict (K V : Type) where
  keys : List K
  val : K → V

/-- `list(ordered_dict.values())` (api.py lines 130-133): the values of the
mapping in its iteration order, the keys dropped. -/
def ordered_dict_to_list {K V : Type} (d : PyDict K V) : List V :=
  d.keys.map d.val

/-! ## Provider clients and session usage (`src/satflow/api.py`) -/

/-- Observable events on provider sessions.  `openS` is the creation of an
authenticated remote session (`API(...)`, `EarthExplorer(...)`,
`SentinelAPI(...)`), `useS` a remote call made on it, `closeS` its release
(`logout()`). -/
inductive SessionEvent
  | openS (sid : Nat)
  | useS (sid : Nat)
  | closeS (sid : Nat)
deriving Repr, DecidableEq

/-- Python truthiness of `os.getenv(...)`: `None` and the empty string are
falsy, every other string is truthy. -/
def pyTruthy : Option String → Bool
  | none => false
  | some s => s ≠ ""

/-- `EarthExplorerApi`: the constructor stores the two credential strings read
from the environment. -/
structure EEApi where
  username : String
  password : String
deriving Repr, DecidableEq

/-- `EarthExplorerApi.__init__` (api.py lines 35-49): read
`LANDSATXPLORE_USERNAME` / `LANDSATXPLORE_PASSWORD` from the environment and
assert both are truthy.  No session is opened and no network call is made. -/
def eeConstruct (username password : Option String) : Except Err EEApi :=
  if pyTruthy username && pyTruthy password then
    .ok ⟨username.getD "", password.getD ""⟩
  else
    .error (.assertionError "Essential environment variables have not been set.")

/-- `EarthExplorerApi.query` (api.py lines 51-69): build a fresh `API` session
(`sid` is its identity), run the remote search on it, and `logout()` — but the
`logout()` is only reached when the search returns; an exception propagates
before it.  Returns the Python result and the trace of session events. -/
def eeQuery (search : Except Err (List Record)) (sid : Nat) :
    Except Err (List Record) × List SessionEvent :=
  match search with
  | .ok products => (.ok products, [.openS sid, .useS sid, .closeS sid])
  | .error e => (.error e, [.openS sid, .useS sid])

/-- `EarthExplorerApi.download` (api.py lines 71-80): build a fresh
`EarthExplorer` session, run the remote download on it, and `logout()` — again
only on the success path. -/
def eeDownload (remote : Except Err String) (sid : Nat) :
    Except Err String × List SessionEvent :=
  match remote with
  | .ok path => (.ok path, [.openS sid, .useS sid, .closeS sid])
  | .error e => (.error e, [.openS sid, .useS sid])

/-- `CopernicusApi`: the constructor stores one `SentinelAPI` session object
on `self.api`; `sessionId` is its identity. -/
structure CopApi where
  sessionId : Nat
deriving Repr, DecidableEq

/-- `CopernicusApi.__init__` (api.py lines 86-101): read `DHUS_USER` /
`DHUS_PASSWORD`, assert both are truthy, and only then create the
`SentinelAPI` session stored on the instance.  On a failed assertion no
session is created (the empty event trace witnesses that no network activity
precedes the failure). -/
def copConstruct (username password : Option String) (sid : Nat) :
    Except Err CopApi × List SessionEvent :=
  if pyTruthy username && pyTruthy password then
    (.ok ⟨sid⟩, [.openS sid])
  else
    (.error (.assertionError
        "Essential username/password environment variables have not been set."),
      [])

/-- `CopernicusApi.query` (api.py lines 103-115): run the remote query on the
instance's stored session `self.api` and normalise the returned mapping with
`ordered_dict_to_list`.  No session is opened and none is closed. -/
def copQuery (api : CopApi) (remote : Except Err (PyDict String Record)) :
    Except Err (List Record) × List SessionEvent :=
  match remote with
  | .ok products => (.ok (ordered_dict_to_list products), [.useS api.sessionId])
  | .error e => (.error e, [.useS api.sessionId])

/-- `CopernicusApi.download` (api.py lines 117-123): run the remote download
on the instance's stored session `self.api`.  No session is opened and none is
closed. -/
def copDownload (api : CopApi) (remote : Except Err String) :
    Except Err String × List SessionEvent :=
  (remote, [.useS api.sessionId])

/-- `CopernicusApi.bbox_to_wkt` (api.py lines 125-128): the point set of
`MultiPoint([(bbox[0], bbox[2]), (bbox[1], bbox[3])])`, whose `.wkt` is the
geometry string sent to the provider.  Coordinates are exact rationals. -/
def bbox_to_wkt (bbox : List ℚ) : List (ℚ × ℚ) :=
  [(bbox.getD 0 0, bbox.getD 2 0), (bbox.getD 1 0, bbox.getD 3 0)]

/-- The four corner points of a bounding box `[minLon, minLat, maxLon,
maxLat]` (the spec's bbox field order). -/
def bboxCorners (bbox : List ℚ) : List (ℚ × ℚ) :=
  [(bbox.getD 0 0, bbox.getD 1 0), (bbox.getD 0 0, bbox.getD 3 0),
   (bbox.getD 2 0, bbox.getD 1 0), (bbox.getD 2 0, bbox.getD 3 0)]

/-! ## The orchestrating flow (`src/satflow/main.py`, lines 53-67) -/

/-- The product types queried by the flow, in the order the `query` tasks are
declared (main.py lines 58-64). -/
def flowQueryCalls : List String := ["S2MSI1C", "landsat_8_c1"]

/-- The batches handed to `download_all` by the flow (main.py lines 66-67):
one call on the `S2MSI1C` query result, a second call on the `landsat_8_c1`
query result.  `q t` is the record list produced by the query task for product
type `t`. -/
def flowDownloadBatches (q : String → List Record) : List (List Record) :=
  [q "S2MSI1C", q "landsat_8_c1"]

/-- The pair of `download_all` results produced by the flow
(`product_msi_dirs`, `product_oli_dirs`). -/
def flowRun (q : String → List Record)
    (dl : Provider → Record → String → Except Err String) :
    Except Err (List String) × Except Err (List String) :=
  (downloadAll dl (q "S2MSI1C"), downloadAll dl (q "landsat_8_c1"))

/-! ## Claim theorems -/

/-- C1 (counterexample): in a two-record batch where the first download fails
and the second would succeed, `download_all` does not return one result per
record with the failure captured per-item: it aborts the whole batch with the
raised exception, suppressing the second record's result. -/
theorem C1_counterexample :
    downloadAll
      (fun _ p _ =>
        if hasKey p "uuid" then .error (.remoteError "connection reset")
        else .ok "../satdata/landsat/B.tar.gz")
      [[("uuid", "a")], [("entity_id", "b")]]
      = .error (.remoteError "connection reset") := by
  rfl

/-- C1 (amended): `download_all` returns exactly one path per input record
only when every record routes and downloads successfully; an individual
routing or download failure is not captured per-item but propagates
immediately, aborting the whole batch and suppressing the results of all the
other records. -/
theorem C1_amended (dl : Provider → Record → String → Except Err String) :
    (∀ ps paths, downloadAll dl ps = .ok paths → paths.length = ps.length) ∧
    (∀ p ps e, routeDownload p = .error e → downloadAll dl (p :: ps) = .error e) ∧
    (∀ p ps prov dir e, routeDownload p = .ok (prov, dir) →
      dl prov p dir = .error e → downloadAll dl (p :: ps) = .error e) := by
  refine ⟨downloadAll_ok_length dl, ?_, ?_⟩
  · intro p ps e h
    simp [downloadAll, h]
  · intro p ps prov dir e h hd
    simp [downloadAll, h, hd]

/-- C1 witness: the amended theorem at concrete oracles and batches. -/
theorem C1_amended_witness :
    (["path"] : List String).length = ([[("uuid", "u")]] : List Record).length ∧
    downloadAll (fun _ _ _ => .ok "path") [[("title", "t")]]
      = .error (.valueError "Unknown product type") ∧
    downloadAll (fun _ _ _ => .error (.remoteError "down")) [[("uuid", "u")]]
      = .error (.remoteError "down") :=
  ⟨(C1_amended fun _ _ _ => (.ok "path" : Except Err String)).1
      [[("uuid", "u")]] ["path"] (by rfl),
   (C1_amended fun _ _ _ => (.ok "path" : Except Err String)).2.1
      [("title", "t")] [] (.valueError "Unknown product type") (by rfl),
   (C1_amended fun _ _ _ => (.error (.remoteError "down") : Except Err String)).2.2
      [("uuid", "u")] [] .copernicus "../satdata/sentinel" (.remoteError "down")
      (by rfl) (by rfl)⟩

/-- C4 (counterexample): a record matching both discriminators ('uuid' and
'entity_id') is silently routed to the Copernicus provider with its output
directory instead of raising a routing error. -/
theorem C4_counterexample :
    routeDownload [("uuid", "u"), ("entity_id", "e")]
      = .ok (.copernicus, "../satdata/sentinel") := by
  rfl

/-- C4 (amended): download routing is total and deterministic with
first-match precedence: any record containing 'uuid' routes to Copernicus
with '../satdata/sentinel' even if it also contains 'entity_id'; a record
without 'uuid' containing 'entity_id' routes to EarthExplorer with
'../satdata/landsat'; a record with neither discriminator raises
`ValueError`.  A record matching two discriminators is thus silently routed
to Copernicus rather than rejected. -/
theorem C4_amended (p : Record) :
    (hasKey p "uuid" = true →
      routeDownload p = .ok (.copernicus, "../satdata/sentinel")) ∧
    (hasKey p "uuid" = false → hasKey p "entity_id" = true →
      routeDownload p = .ok (.earthExplorer, "../satdata/landsat")) ∧
    (hasKey p "uuid" = false → hasKey p "entity_id" = false →
      routeDownload p = .error (.valueError "Unknown product type")) :=
  ⟨fun h => by simp [routeDownload, h],
   fun h1 h2 => by simp [routeDownload, h1, h2],
   fun h1 h2 => by simp [routeDownload, h1, h2]⟩

/-- C4 witness: the amended routing theorem at three concrete records. -/
theorem C4_amended_witness :
    routeDownload [("uuid", "u")] = .ok (.copernicus, "../satdata/sentinel") ∧
    routeDownload [("entity_id", "e")] = .ok (.earthExplorer, "../satdata/landsat") ∧
    routeDownload [("title", "t")] = .error (.valueError "Unknown product type") :=
  ⟨(C4_amended [("uuid", "u")]).1 (by rfl),
   (C4_amended [("entity_id", "e")]).2.1 (by rfl) (by rfl),
   (C4_amended [("title", "t")]).2.2 (by rfl) (by rfl)⟩

/-- C9: when every input record carries 'uuid' or 'entity_id' and every
download succeeds, `download_all` returns the downloaded paths in input order
— the i-th path is the download of the i-th record — with 'uuid' records
fetched by Copernicus into '../satdata/sentinel' and the remaining
'entity_id' records by EarthExplorer into '../satdata/landsat'; the empty
batch yields the empty list. -/
theorem C9_download_order (dlFun : Provider → Record → String → String)
    (ps : List Record)
    (h : ∀ p ∈ ps, (hasKey p "uuid" || hasKey p "entity_id") = true) :
    downloadAll (fun prov p dir => .ok (dlFun prov p dir)) ps =
      .ok (ps.map fun p =>
        if hasKey p "uuid" then dlFun .copernicus p "../satdata/sentinel"
        else dlFun .earthExplorer p "../satdata/landsat") ∧
    downloadAll (fun prov p dir => .ok (dlFun prov p dir)) ([] : List Record)
      = .ok [] :=
  ⟨downloadAll_map_ok dlFun ps h, rfl⟩

/-- C9 witness: a mixed two-record batch downloads in input order into the
two provider directories. -/
theorem C9_download_order_witness :
    downloadAll (fun _ _ dir => (.ok (dir ++ "/x") : Except Err String))
      [[("uuid", "u")], [("entity_id", "e")]]
      = .ok ["../satdata/sentinel/x", "../satdata/landsat/x"] :=
  ((C9_download_order (fun _ _ dir => dir ++ "/x")
      [[("uuid", "u")], [("entity_id", "e")]] (by decide)).1).trans (by rfl)

/-- C3 (counterexample): with the S2MSI1C query returning record A and the
landsat_8_c1 query returning record B, the flow hands `download_all` two
separate batches [A] and [B] — two invocations — and never the single
concatenated batch [A, B]. -/
theorem C3_counterexample :
    flowDownloadBatches
        (fun t => if t == "S2MSI1C" then [[("uuid", "a")]]
                  else [[("entity_id", "b")]])
      = [[[("uuid", "a")]], [[("entity_id", "b")]]] ∧
    flowDownloadBatches
        (fun t => if t == "S2MSI1C" then [[("uuid", "a")]]
                  else [[("entity_id", "b")]])
      ≠ [[[("uuid", "a")], [("entity_id", "b")]]] := by
  exact ⟨rfl, by decide⟩

/-- C3 (amended): the flow runs one query per configured product type
('S2MSI1C' then 'landsat_8_c1') but invokes the download stage once per query
result — two invocations, the first type's batch then the second's — rather
than once over a concatenated list; when every record is routable and every
download succeeds, the two invocations together return N1 + N2 paths, the
first type's results preceding the second's. -/
theorem C3_amended (q : String → List Record)
    (dlFun : Provider → Record → String → String)
    (h : ∀ p ∈ q "S2MSI1C" ++ q "landsat_8_c1",
      (hasKey p "uuid" || hasKey p "entity_id") = true) :
    flowQueryCalls = ["S2MSI1C", "landsat_8_c1"] ∧
    flowDownloadBatches q = [q "S2MSI1C", q "landsat_8_c1"] ∧
    ∃ paths1 paths2,
      flowRun q (fun prov p dir => .ok (dlFun prov p dir))
        = (.ok paths1, .ok paths2) ∧
      paths1.length = (q "S2MSI1C").length ∧
      paths2.length = (q "landsat_8_c1").length ∧
      paths1.length + paths2.length
        = (q "S2MSI1C").length + (q "landsat_8_c1").length := by
  have h1 : ∀ p ∈ q "S2MSI1C", (hasKey p "uuid" || hasKey p "entity_id") = true :=
    fun p hp => h p (List.mem_append_left _ hp)
  have h2 : ∀ p ∈ q "landsat_8_c1", (hasKey p "uuid" || hasKey p "entity_id") = true :=
    fun p hp => h p (List.mem_append_right _ hp)
  refine ⟨rfl, rfl,
    (q "S2MSI1C").map (fun p =>
      if hasKey p "uuid" then dlFun .copernicus p "../satdata/sentinel"
      else dlFun .earthExplorer p "../satdata/landsat"),
    (q "landsat_8_c1").map (fun p =>
      if hasKey p "uuid" then dlFun .copernicus p "../satdata/sentinel"
      else dlFun .earthExplorer p "../satdata/landsat"),
    ?_, ?_, ?_, ?_⟩
  · unfold flowRun
    rw [downloadAll_map_ok dlFun _ h1, downloadAll_map_ok dlFun _ h2]
  · simp
  · simp
  · simp

/-- C3 witness: the amended flow theorem at a concrete query oracle with one
record per product type. -/
theorem C3_amended_witness :
    flowDownloadBatches
        (fun t => if t == "S2MSI1C" then [[("uuid", "a")]]
                  else [[("entity_id", "b")]])
      = [[[("uuid", "a")]], [[("entity_id", "b")]]] :=
  ((C3_amended
      (fun t => if t == "S2MSI1C" then [[("uuid", "a")]]
                else [[("entity_id", "b")]])
      (fun _ _ dir => dir) (by decide)).2.1).trans (by rfl)

/-- C2 (code bug): at the repository's own example bbox
(23.5, 37.7, 24, 38.2) = (minLon, minLat, maxLon, maxLat), `bbox_to_wkt`
pairs index 0 with index 2 and index 1 with index 3, producing the two points
(23.5, 24) and (37.7, 38.2) — a longitude paired with a longitude and a
latitude with a latitude — and the resulting geometry contains none of the
four corner points of the box. -/
theorem C2_bbox_to_wkt_bug :
    bbox_to_wkt [47/2, 377/10, 24, 191/5]
      = [((47 : ℚ)/2, (24 : ℚ)), ((377 : ℚ)/10, (191 : ℚ)/5)] ∧
    bboxCorners [47/2, 377/10, 24, 191/5]
      = [((47 : ℚ)/2, (377 : ℚ)/10), ((47 : ℚ)/2, (191 : ℚ)/5),
         ((24 : ℚ), (377 : ℚ)/10), ((24 : ℚ), (191 : ℚ)/5)] ∧
    ((47 : ℚ)/2, (377 : ℚ)/10) ∉ bbox_to_wkt [47/2, 377/10, 24, 191/5] ∧
    ((47 : ℚ)/2, (191 : ℚ)/5) ∉ bbox_to_wkt [47/2, 377/10, 24, 191/5] ∧
    ((24 : ℚ), (377 : ℚ)/10) ∉ bbox_to_wkt [47/2, 377/10, 24, 191/5] ∧
    ((24 : ℚ), (191 : ℚ)/5) ∉ bbox_to_wkt [47/2, 377/10, 24, 191/5] := by
  refine ⟨rfl, rfl, ?_, ?_, ?_, ?_⟩ <;> · simp [bbox_to_wkt]; norm_num

/-- The total retry delay waited is the fixed per-retry delay times the
number of failures, i.e. the number of attempts beyond the first. -/
theorem retryLoop_delay (attempt : Nat → Except Err (List Record)) :
    ∀ retries i, (retryLoop attempt i retries).2.2
      = queryRetryDelaySeconds * ((retryLoop attempt i retries).2.1 - (i + 1)) := by
  intro retries
  induction retries with
  | zero => intro i; simp [retryLoop]
  | succ n ih =>
    intro i
    cases h : attempt i with
    | ok r => simp [retryLoop, h]
    | error e =>
      have hlow := (retryLoop_attempts_le attempt n (i + 1)).1
      simp only [retryLoop, h]
      rw [ih (i + 1)]
      simp only [queryRetryDelaySeconds] at *
      omega

/-- C5 (counterexample): with an unsupported product type every attempt of
the query task raises the unsupported-product-type `ValueError` — a
non-transient failure — yet the task still makes 4 total attempts (the
initial run plus the full budget of 3 retries, 15 seconds of delay),
contradicting both the at-most-3-total-attempts bound and zero retries on an
`UnsupportedProductTypeError`. -/
theorem C5_counterexample :
    (queryTask (fun _ => .ok []) (fun _ => .ok []) "bogus").2.1 = 4 ∧
    (queryTask (fun _ => .ok []) (fun _ => .ok []) "bogus").1
      = .error (.valueError "Product type value is not currently supported.") ∧
    (queryTask (fun _ => .ok []) (fun _ => .ok []) "bogus").2.2 = 15 :=
  ⟨rfl, rfl, rfl⟩

/-- C5 (amended): the query task makes between 1 and 4 total attempts — the
initial attempt plus up to `max_retries = 3` retries — with a fixed 5-second
delay between consecutive attempts (total delay waited = 5 * (attempts - 1));
the retry mechanism does not discriminate failure kinds: whenever the body
fails on every attempt, including with the unsupported-product-type
`ValueError` or the credential `AssertionError`, all 3 retries are performed
(4 attempts, 15 seconds waited). -/
theorem C5_amended (qCop qEE : Nat → Except Err (List Record)) (pt : String) :
    1 ≤ (queryTask qCop qEE pt).2.1 ∧
    (queryTask qCop qEE pt).2.1 ≤ queryMaxRetries + 1 ∧
    queryMaxRetries = 3 ∧
    queryRetryDelaySeconds = 5 ∧
    (queryTask qCop qEE pt).2.2
      = queryRetryDelaySeconds * ((queryTask qCop qEE pt).2.1 - 1) ∧
    ((∀ i, ∃ e, queryBody (qCop i) (qEE i) pt = .error e) →
      (queryTask qCop qEE pt).2.1 = 4 ∧ (queryTask qCop qEE pt).2.2 = 15) := by
  refine ⟨?_, ?_, rfl, rfl, ?_, ?_⟩
  · exact (retryLoop_attempts_le _ queryMaxRetries 0).1
  · exact (retryLoop_attempts_le _ queryMaxRetries 0).2
  · exact retryLoop_delay _ queryMaxRetries 0
  · intro hfail
    have := retryLoop_all_fail _ hfail queryMaxRetries 0
    exact ⟨this.1, this.2⟩

/-- C5 witness: a query whose remote call times out on every attempt is
retried to 4 total attempts. -/
theorem C5_amended_witness :
    (queryTask (fun _ => .error (.remoteError "timeout")) (fun _ => .ok [])
        "S2MSI1C").2.1 = 4 :=
  ((C5_amended (fun _ => .error (.remoteError "timeout")) (fun _ => .ok [])
      "S2MSI1C").2.2.2.2.2 (fun _ => ⟨.remoteError "timeout", rfl⟩)).1

/-- C7: query routing is the fixed mapping checked at call time: 'S2MSI1C'
runs the Copernicus client's query, 'landsat_8_c1' runs the EarthExplorer
client's, and any other product-type string raises the
unsupported-product-type `ValueError`; in the last case the result is the
same for every provider oracle outcome, so no provider is contacted. -/
theorem C7_query_routing (qCop qEE : Except Err (List Record)) (s : String) :
    queryBody qCop qEE "S2MSI1C" = qCop ∧
    queryBody qCop qEE "landsat_8_c1" = qEE ∧
    (s ≠ "S2MSI1C" → s ≠ "landsat_8_c1" →
      queryBody qCop qEE s
        = .error (.valueError "Product type value is not currently supported.")) := by
  refine ⟨rfl, rfl, ?_⟩
  intro h1 h2
  simp [queryBody, h1, h2]

/-- C7 witness: an unknown product type fails identically under two different
sets of provider outcomes. -/
theorem C7_query_routing_witness :
    queryBody (.ok [[("uuid", "u")]]) (.ok []) "modis"
      = .error (.valueError "Product type value is not currently supported.") :=
  (C7_query_routing (.ok [[("uuid", "u")]]) (.ok []) "modis").2.2
    (by decide) (by decide)

/-- C8: for each provider client, if either required credential environment
variable is absent or empty (Python-falsy), construction fails immediately
with the credential `AssertionError` — the Copernicus constructor's session
trace is empty on failure, and the EarthExplorer constructor performs no
network activity at all — and if both are present and non-empty, construction
succeeds. -/
theorem C8_construct (u p : Option String) :
    ((pyTruthy u = false ∨ pyTruthy p = false) →
      eeConstruct u p = .error (.assertionError
        "Essential environment variables have not been set.") ∧
      ∀ sid, copConstruct u p sid = (.error (.assertionError
        "Essential username/password environment variables have not been set."),
        [])) ∧
    (pyTruthy u = true → pyTruthy p = true →
      (∃ api, eeConstruct u p = .ok api) ∧
      ∀ sid, (copConstruct u p sid).1 = .ok ⟨sid⟩ ∧
        (copConstruct u p sid).2 = [.openS sid]) := by
  constructor
  · intro h
    have hb : (pyTruthy u && pyTruthy p) = false := by
      rcases h with h | h <;> simp [h]
    exact ⟨by simp [eeConstruct, hb], fun sid => by simp [copConstruct, hb]⟩
  · intro h1 h2
    refine ⟨⟨⟨u.getD "", p.getD ""⟩, by simp [eeConstruct, h1, h2]⟩, fun sid => ?_⟩
    constructor <;> simp [copConstruct, h1, h2]

/-- C8 witness: a missing variable fails construction; a full credential pair
succeeds. -/
theorem C8_construct_witness :
    eeConstruct none (some "pw")
      = .error (.assertionError
        "Essential environment variables have not been set.") ∧
    ∃ api, eeConstruct (some "user") (some "pw") = .ok api :=
  ⟨((C8_construct none (some "pw")).1 (Or.inl rfl)).1,
   ((C8_construct (some "user") (some "pw")).2 rfl rfl).1⟩

/-- C6 (counterexample): on one Copernicus client (the session opened at
construction has identity 0), a query call and a download call both use
session 0 — the two calls share the constructor's session, neither opens a
fresh one nor closes it — and an EarthExplorer query whose remote search
fails opens session 7 and never closes it. -/
theorem C6_counterexample :
    (copQuery ⟨0⟩ (.ok ⟨[], fun _ => []⟩)).2 = [.useS 0] ∧
    (copDownload ⟨0⟩ (.ok "p")).2 = [.useS 0] ∧
    (eeQuery (.error (.remoteError "search failed")) 7).2
      = [.openS 7, .useS 7] ∧
    SessionEvent.closeS 7 ∉ (eeQuery (.error (.remoteError "search failed")) 7).2 :=
  ⟨rfl, rfl, rfl, by decide⟩

/-- C6 (amended): session handling differs per client: each EarthExplorer
query or download call opens a fresh session but releases it only on the
success path — when the remote call fails the session is never closed — while
the Copernicus client opens one session at construction and reuses it across
all query and download calls, opening no fresh session and never releasing
it; in particular two successive Copernicus calls on the same client always
share the same session. -/
theorem C6_amended (sid : Nat) (rq : Except Err (List Record))
    (rd : Except Err String) (api : CopApi) (d : PyDict String Record) :
    (eeQuery rq sid).2
      = (if rq.isOk then [.openS sid, .useS sid, .closeS sid]
         else [.openS sid, .useS sid]) ∧
    (eeDownload rd sid).2
      = (if rd.isOk then [.openS sid, .useS sid, .closeS sid]
         else [.openS sid, .useS sid]) ∧
    (copQuery api (.ok d)).2 = [.useS api.sessionId] ∧
    (copDownload api rd).2 = [.useS api.sessionId] ∧
    (copQuery api (.ok d)).2 = (copDownload api rd).2 := by
  refine ⟨?_, ?_, rfl, rfl, rfl⟩
  · cases rq <;> rfl
  · cases rd <;> rfl

/-- C10: `ordered_dict_to_list` maps a dict to the list of its values in
iteration order, dropping the keys: the output length equals the number of
keys, the i-th element is the value stored at the i-th key, and
`CopernicusApi.query` returns exactly this list for the provider's response
mapping — one record per entry. -/
theorem C10_values (d : PyDict String Record) (api : CopApi) :
    (ordered_dict_to_list d).length = d.keys.length ∧
    (∀ i, i < d.keys.length →
      (ordered_dict_to_list d).getD i [] = d.val (d.keys.getD i "")) ∧
    (copQuery api (.ok d)).1 = .ok (ordered_dict_to_list d) ∧
    (∀ recs, (copQuery api (.ok d)).1 = .ok recs →
      recs.length = d.keys.length) := by
  refine ⟨by simp [ordered_dict_to_list], ?_, rfl, ?_⟩
  · intro i hi
    have h1 : d.keys[i]? = some (d.keys.get ⟨i, hi⟩) := by
      simp [List.getElem?_eq_getElem hi]
    simp [ordered_dict_to_list, List.getD_eq_getElem?_getD, List.getElem?_map, h1]
  · intro recs hrecs
    have : recs = ordered_dict_to_list d := by
      simpa [copQuery] using hrecs.symm
    simp [this, ordered_dict_to_list]

/-- C10 witness: a two-entry response mapping yields its two values in key
order. -/
theorem C10_values_witness :
    (ordered_dict_to_list
        (⟨["a", "b"], fun k => [("uuid", k)]⟩ : PyDict String Record)).length = 2 ∧
    (ordered_dict_to_list
        (⟨["a", "b"], fun k => [("uuid", k)]⟩ : PyDict String Record)).getD 0 []
      = [("uuid", "a")] :=
  ⟨((C10_values ⟨["a", "b"], fun k => [("uuid", k)]⟩ ⟨0⟩).1).trans rfl,
   ((C10_values ⟨["a", "b"], fun k => [("uuid", k)]⟩ ⟨0⟩).2.1 0
      (by decide)).trans rfl⟩

end Satflow
